import Mathlib

/-!
Verification of the tesla_powerwall client library core
(`tesla_powerwall/__init__.py`): the response-validation layer
(`assert_attribute`), the version gate (pinned firmware version and the
`1.46.0` threshold in `get_device_type`), and the session operations.

The repository ships `__init__.py`; its helper modules (`api.py`,
`const.py`, `error.py`, `helpers.py`, `responses.py`) are declared by the
spec as thin collaborators and are modelled from the spec where a claim
needs them (marked in doc comments).
-/

namespace TeslaPowerwall

/-- A decoded JSON-like server response value: string keys mapping to
strings, numbers, booleans, null, nested objects, or arrays. -/
inductive JVal where
  | str (s : String)
  | num (q : ℚ)
  | bool (b : Bool)
  | null
  | obj (fields : List (String × JVal))
  | arr (elems : List JVal)

/-- A null test mirroring Python `value is None`. -/
def JVal.isNull : JVal → Bool
  | .null => true
  | _ => false

/-- The error taxonomy of the library (`error.py` is not under src/;
kinds taken from the spec's error taxonomy, plus the Python-level
TypeError that an unsupported comparison or iteration raises). -/
inductive Err where
  | missingAttribute (attr : String) (category : Option String)
  | unknownEnumValue (value : String) (enum : String)
  | invalidVersion (s : String)
  | typeError (msg : String)
  deriving DecidableEq

/-- Modelled from the spec: `assert_attribute` from the missing
`helpers.py`. Look up the key in the mapping; if the container is not a
mapping, or the key is absent, or present but null, fail with a
MissingAttributeError carrying the key name and the category label;
otherwise return the value unmodified. -/
def assert_attribute (response : JVal) (attr : String)
    (category : Option String) : Except Err JVal :=
  match response with
  | .obj fields =>
      match fields.lookup attr with
      | some v =>
          if v.isNull then .error (.missingAttribute attr category)
          else .ok v
      | none => .error (.missingAttribute attr category)
  | _ => .error (.missingAttribute attr category)

/-- A parsed firmware version under major.minor.patch semantics. -/
structure PWVersion where
  major : Nat
  minor : Nat
  patch : Nat
  deriving DecidableEq

/-- Standard semantic-version ordering on major.minor.patch triples:
compare major, then minor, then patch. -/
def PWVersion.le (a b : PWVersion) : Bool :=
  Nat.blt a.major b.major ||
    (a.major == b.major &&
      (Nat.blt a.minor b.minor ||
        (a.minor == b.minor && Nat.ble a.patch b.patch)))

/-- Splitting a character list on the dot separator. -/
def splitOnDot : List Char → List (List Char)
  | [] => [[]]
  | c :: cs =>
      match splitOnDot cs with
      | [] => if c = '.' then [[], []] else [[c]]
      | r :: rs => if c = '.' then [] :: r :: rs else (c :: r) :: rs

/-- The numeric value of a decimal digit character, none otherwise. -/
def digitVal? (c : Char) : Option Nat :=
  if c.isDigit then some (c.toNat - 48) else none

/-- A nonempty all-digit character list read as a decimal number,
none otherwise. -/
def compToNat? (cs : List Char) : Option Nat :=
  if cs = [] then none
  else cs.foldl
    (fun acc c =>
      match acc, digitVal? c with
      | some n, some d => some (10 * n + d)
      | _, _ => none)
    (some 0)

/-- Modelled from the spec: `packaging.version.parse` restricted to the
major.minor.patch shape the spec's version gate compares on. A version
string is one to three dot-separated decimal components (missing
components default to 0); anything else is malformed and yields none
(packaging raises InvalidVersion). -/
def parseVersion (s : String) : Option PWVersion :=
  match (splitOnDot s.toList).map compToNat? with
  | [some a] => some ⟨a, 0, 0⟩
  | [some a, some b] => some ⟨a, b, 0⟩
  | [some a, some b, some c] => some ⟨a, b, c⟩
  | _ => none

/-- The version gate threshold `version.parse("1.46.0")` from
`get_device_type`. -/
def thresholdVersion : PWVersion := ⟨1, 46, 0⟩

/-- Device category enumeration, a closed set of known strings
(`const.py` is not under src/; modelled from the spec's Domain
Enumerations). -/
inductive DeviceType where
  | gw1
  | gw2
  | smc
  deriving DecidableEq

/-- The closed value set of the device category enumeration. -/
def deviceTypeValues : List (String × DeviceType) :=
  [("hec", .gw1), ("teg", .gw2), ("smc", .smc)]

/-- Grid status enumeration, a closed set of known strings
(`const.py` is not under src/; modelled from the spec's Domain
Enumerations). -/
inductive GridStatus where
  | connected
  | islandedReady
  | islanded
  | transitionToGrid
  deriving DecidableEq

/-- The closed value set of the grid status enumeration. -/
def gridStatusValues : List (String × GridStatus) :=
  [("SystemGridConnected", .connected),
   ("SystemIslandedReady", .islandedReady),
   ("SystemIslandedActive", .islanded),
   ("SystemTransitionToGrid", .transitionToGrid)]

/-- Operating mode enumeration, a closed set of known strings
(`const.py` is not under src/; modelled from the spec's Domain
Enumerations). -/
inductive OperationMode where
  | backup
  | selfConsumption
  | autonomous
  | scheduler
  | siteControl
  deriving DecidableEq

/-- The closed value set of the operating mode enumeration. -/
def operationModeValues : List (String × OperationMode) :=
  [("backup", .backup), ("self_consumption", .selfConsumption),
   ("autonomous", .autonomous), ("scheduler", .scheduler),
   ("site_control", .siteControl)]

/-- Parsing a raw response value through a closed enumeration: a string
inside the known set maps to its member, anything else fails with an
unknown-enum-value error (Python `Enum(value)` raises ValueError). -/
def parseEnumField {α : Type} (values : List (String × α))
    (enumName : String) (v : JVal) : Except Err α :=
  match v with
  | .str s =>
      match values.lookup s with
      | some x => .ok x
      | none => .error (.unknownEnumValue s enumName)
  | _ => .error (.unknownEnumValue "<non-string>" enumName)

/-- User role enumeration (`const.py` is not under src/; modelled from
the spec's user-role Domain Enumeration). -/
inductive User where
  | customer
  | installer
  | engineer
  | kiosk
  deriving DecidableEq

/-- The wire value of a user role (Python `user.value`). -/
def User.value : User → String
  | .customer => "customer"
  | .installer => "installer"
  | .engineer => "engineer"
  | .kiosk => "kiosk"

/-- The `Union[User, str]` argument type of `login_as`. -/
inductive UserArg where
  | ofUser (u : User)
  | ofStr (s : String)
  deriving DecidableEq

/-- The `isinstance(user, User)` normalisation at the top of
`login_as`: a User is replaced by its value, a plain string passes
through. -/
def UserArg.toWire : UserArg → String
  | .ofUser u => u.value
  | .ofStr s => s

/-- Thin wrapper around the raw login response (`responses.py` is not
under src/; the spec declares response models as thin wrappers). -/
structure LoginResponse where
  response : JVal

/-- Thin wrapper around the raw sitemaster response. -/
structure SiteMaster where
  response : JVal

/-- Thin wrapper around the raw meters-aggregates response. -/
structure MetersAggregates where
  response : JVal

/-- Thin wrapper around the raw site-info response. -/
structure SiteInfo where
  response : JVal

/-- Thin wrapper around one raw solar-inverter entry. -/
structure Solar where
  response : JVal

/-- Thin wrapper around the raw status response. -/
structure PowerwallStatus where
  response : JVal

/-- Modelled from the spec: the `device_type` accessor of the status
response model (`responses.py` is not under src/). The live path of
device-type detection validates the `device_type` field of the general
status response and maps it through the device category enumeration so
both paths produce the same return type. -/
def PowerwallStatus.device_type (st : PowerwallStatus) :
    Except Err DeviceType := do
  let v ← assert_attribute st.response "device_type" (some "status")
  parseEnumField deviceTypeValues "DeviceType" v

/-- The backend's response for each endpoint the API exposes
(`api.py` is not under src/; the spec declares the transport as an
opaque send capability, so the API is modelled as a table from endpoint
to decoded response). -/
structure Backend where
  loginResp : JVal
  statusResp : JVal
  soeResp : JVal
  gridStatusResp : JVal
  deviceTypeResp : JVal
  sitemasterResp : JVal
  metersResp : JVal
  siteInfoResp : JVal
  operationResp : JVal
  powerwallsResp : JVal
  solarsResp : JVal
  configResp : JVal
  postSiteNameResp : JVal

/-- One HTTP exchange issued by an operation, identified by its
endpoint (and payload for writes). -/
inductive Endpoint where
  | login (user email password : String) (force_sm_off : Bool)
  | logout
  | sitemasterRun
  | sitemasterStop
  | systemStatusSoe
  | sitemaster
  | metersAggregates
  | systemStatusGridStatus
  | siteInfo
  | postSiteInfoSiteName (site_name : String)
  | status
  | deviceType
  | powerwalls
  | operation
  | solars
  | config
  deriving DecidableEq

/-- The `_pin_version` field. The constructor stores the raw string it
was given (`self._pin_version = pin_version`), while the `pin_version`
method stores a parsed version (`version.parse(vers)`), so the field
can hold either shape, or nothing. -/
inductive Pin where
  | none
  | str (s : String)
  | ver (v : PWVersion)
  deriving DecidableEq

/-- The Powerwall session state: the pinned version field, the
authentication flag carried by the transport's cookie jar, and the
backend the API talks to. -/
structure Powerwall where
  pin : Pin
  authenticated : Bool
  api : Backend

/-- The outcome of one operation: its returned value or error, the
session state after the call, and the list of HTTP exchanges issued. -/
structure OpResult (α : Type) where
  result : Except Err α
  state : Powerwall
  trace : List Endpoint

/-- The constructor: `Powerwall.__init__` stores the optional
`pin_version` argument unparsed and builds the API handle. -/
def Powerwall.init (api : Backend) (pin_version : Option String) :
    Powerwall :=
  { pin := match pin_version with
           | Option.none => Pin.none
           | Option.some s => Pin.str s,
    authenticated := false,
    api := api }

/-- `login_as`: normalise the user argument, issue the login request
(the auth cookie is set as a side effect), wrap the response. -/
def Powerwall.login_as (p : Powerwall) (user : UserArg)
    (email password : String) (force_sm_off : Bool) :
    OpResult LoginResponse :=
  ⟨.ok (LoginResponse.mk p.api.loginResp),
   { p with authenticated := true },
   [.login user.toWire email password force_sm_off]⟩

/-- `login`: delegates to `login_as` with `User.CUSTOMER`. -/
def Powerwall.login (p : Powerwall) (email password : String)
    (force_sm_off : Bool) : OpResult LoginResponse :=
  p.login_as (.ofUser .customer) email password force_sm_off

/-- Modelled from the spec: `logout` issues the logout request and
completes without raising whatever the authentication state is
(`api.py` is not under src/; the spec makes logout idempotent). -/
def Powerwall.logout (p : Powerwall) : OpResult Unit :=
  ⟨.ok (), { p with authenticated := false }, [.logout]⟩

/-- `run`: one request to the sitemaster run endpoint. -/
def Powerwall.run (p : Powerwall) : OpResult Unit :=
  ⟨.ok (), p, [.sitemasterRun]⟩

/-- `stop`: one request to the sitemaster stop endpoint. -/
def Powerwall.stop (p : Powerwall) : OpResult Unit :=
  ⟨.ok (), p, [.sitemasterStop]⟩

/-- `get_charge`: validate the `percentage` field of the soe response
under category `soe` and return it unmodified. -/
def Powerwall.get_charge (p : Powerwall) : OpResult JVal :=
  ⟨assert_attribute p.api.soeResp "percentage" (some "soe"),
   p, [.systemStatusSoe]⟩

/-- `get_sitemaster`: wrap the raw sitemaster response. -/
def Powerwall.get_sitemaster (p : Powerwall) : OpResult SiteMaster :=
  ⟨.ok (SiteMaster.mk p.api.sitemasterResp), p, [.sitemaster]⟩

/-- `get_meters`: wrap the raw meters-aggregates response. -/
def Powerwall.get_meters (p : Powerwall) : OpResult MetersAggregates :=
  ⟨.ok (MetersAggregates.mk p.api.metersResp), p, [.metersAggregates]⟩

/-- `get_grid_status`: validate the `grid_status` field under category
`grid_status` and map it through the grid status enumeration. -/
def Powerwall.get_grid_status (p : Powerwall) : OpResult GridStatus :=
  ⟨(do
      let v ← assert_attribute p.api.gridStatusResp "grid_status"
        (some "grid_status")
      parseEnumField gridStatusValues "GridStatus" v),
   p, [.systemStatusGridStatus]⟩

/-- `is_grid_services_active`: validate the `grid_services_active`
field under category `grid_status` and return it unmodified. -/
def Powerwall.is_grid_services_active (p : Powerwall) : OpResult JVal :=
  ⟨assert_attribute p.api.gridStatusResp "grid_services_active"
     (some "grid_status"),
   p, [.systemStatusGridStatus]⟩

/-- `get_site_info`: wrap the raw site-info response. -/
def Powerwall.get_site_info (p : Powerwall) : OpResult SiteInfo :=
  ⟨.ok (SiteInfo.mk p.api.siteInfoResp), p, [.siteInfo]⟩

/-- `set_site_name`: post the new site name and return the raw
response. -/
def Powerwall.set_site_name (p : Powerwall) (site_name : String) :
    OpResult JVal :=
  ⟨.ok p.api.postSiteNameResp, p, [.postSiteInfoSiteName site_name]⟩

/-- `get_status`: wrap the raw status response. -/
def Powerwall.get_status (p : Powerwall) : OpResult PowerwallStatus :=
  ⟨.ok (PowerwallStatus.mk p.api.statusResp), p, [.status]⟩

/-- `get_device_type`: if no pin is set, or the pin is at least the
`1.46.0` threshold, take the live path (read `device_type` from the
general status response); a below-threshold pin takes the legacy path
(the dedicated device-type endpoint, mapped through the enumeration).
A pin stored as a raw string by the constructor makes the Python
comparison `str >= Version` raise TypeError before any request. -/
def Powerwall.get_device_type (p : Powerwall) : OpResult DeviceType :=
  match p.pin with
  | .none =>
      ⟨(PowerwallStatus.mk p.api.statusResp).device_type, p, [.status]⟩
  | .ver v =>
      if thresholdVersion.le v then
        ⟨(PowerwallStatus.mk p.api.statusResp).device_type, p, [.status]⟩
      else
        ⟨(do
            let w ← assert_attribute p.api.deviceTypeResp "device_type"
              (some "device_type")
            parseEnumField deviceTypeValues "DeviceType" w),
         p, [.deviceType]⟩
  | .str _ =>
      ⟨.error (.typeError "unorderable types: str and Version"), p, []⟩

/-- `get_serial_numbers`: validate the `powerwalls` list field, then
validate `PackageSerialNumber` on each entry (with no category). -/
def Powerwall.get_serial_numbers (p : Powerwall) : OpResult (List JVal) :=
  ⟨(do
      let pws ← assert_attribute p.api.powerwallsResp "powerwalls"
        (some "powerwalls")
      match pws with
      | .arr l =>
          l.mapM (fun pw => assert_attribute pw "PackageSerialNumber"
            Option.none)
      | _ => .error (.typeError "powerwalls is not iterable")),
   p, [.powerwalls]⟩

/-- `get_operation_mode`: validate the `real_mode` field under
category `operation` and map it through the operating mode
enumeration. -/
def Powerwall.get_operation_mode (p : Powerwall) : OpResult OperationMode :=
  ⟨(do
      let v ← assert_attribute p.api.operationResp "real_mode"
        (some "operation")
      parseEnumField operationModeValues "OperationMode" v),
   p, [.operation]⟩

/-- `get_backup_reserved_percentage`: validate the
`backup_reserved_percent` field under category `operation` and return
it unmodified. -/
def Powerwall.get_backup_reserved_percentage (p : Powerwall) :
    OpResult JVal :=
  ⟨assert_attribute p.api.operationResp "backup_reserved_percent"
     (some "operation"),
   p, [.operation]⟩

/-- `get_solars`: wrap each entry of the raw solars list. -/
def Powerwall.get_solars (p : Powerwall) : OpResult (List Solar) :=
  ⟨(match p.api.solarsResp with
    | .arr l => .ok (l.map Solar.mk)
    | _ => .error (.typeError "solars response is not iterable")),
   p, [.solars]⟩

/-- `get_vin`: validate the `vin` field under category `config` and
return it unmodified. -/
def Powerwall.get_vin (p : Powerwall) : OpResult JVal :=
  ⟨assert_attribute p.api.configResp "vin" (some "config"), p, [.config]⟩

/-- `get_version`: validate the `version` field of the status response
under category `status` and return it unmodified. -/
def Powerwall.get_version (p : Powerwall) : OpResult JVal :=
  ⟨assert_attribute p.api.statusResp "version" (some "status"),
   p, [.status]⟩

/-- `pin_version`: parse the given string and store the parsed version
in the pin field; a malformed string fails with InvalidVersion before
the field is assigned, leaving the previous pin unchanged. -/
def Powerwall.pin_version (p : Powerwall) (vers : String) : OpResult Unit :=
  match parseVersion vers with
  | some v => ⟨.ok (), { p with pin := .ver v }, []⟩
  | Option.none => ⟨.error (.invalidVersion vers), p, []⟩

/-- `detect_and_pin_version`: read the firmware version from the
status response, pin it, and return the stored pin field. -/
def Powerwall.detect_and_pin_version (p : Powerwall) : OpResult Pin :=
  let rv := p.get_version
  match rv.result with
  | .ok (.str s) =>
      let rp := rv.state.pin_version s
      match rp.result with
      | .ok _ => ⟨.ok rp.state.pin, rp.state, rv.trace ++ rp.trace⟩
      | .error e => ⟨.error e, rp.state, rv.trace ++ rp.trace⟩
  | .ok _ =>
      ⟨.error (.typeError "expected str for version.parse"),
       rv.state, rv.trace⟩
  | .error e => ⟨.error e, rv.state, rv.trace⟩

/-- `get_pinned_version`: return the pin field as it is. -/
def Powerwall.get_pinned_version (p : Powerwall) : OpResult Pin :=
  ⟨.ok p.pin, p, []⟩

/-- Every public operation other than construction, `pin_version` and
`detect_and_pin_version` leaves the stored pinned version unchanged. -/
def allOpsPreservePin : Prop :=
  ∀ (p : Powerwall) (user : UserArg) (email password site_name : String)
    (f : Bool),
    (p.login email password f).state.pin = p.pin ∧
    (p.login_as user email password f).state.pin = p.pin ∧
    p.logout.state.pin = p.pin ∧
    p.run.state.pin = p.pin ∧
    p.stop.state.pin = p.pin ∧
    p.get_charge.state.pin = p.pin ∧
    p.get_sitemaster.state.pin = p.pin ∧
    p.get_meters.state.pin = p.pin ∧
    p.get_grid_status.state.pin = p.pin ∧
    p.is_grid_services_active.state.pin = p.pin ∧
    p.get_site_info.state.pin = p.pin ∧
    (p.set_site_name site_name).state.pin = p.pin ∧
    p.get_status.state.pin = p.pin ∧
    p.get_device_type.state.pin = p.pin ∧
    p.get_serial_numbers.state.pin = p.pin ∧
    p.get_operation_mode.state.pin = p.pin ∧
    p.get_backup_reserved_percentage.state.pin = p.pin ∧
    p.get_solars.state.pin = p.pin ∧
    p.get_vin.state.pin = p.pin ∧
    p.get_version.state.pin = p.pin ∧
    p.get_pinned_version.state.pin = p.pin

/-- A sample backend used as concrete input for witnesses: newer
firmware 1.50.0 whose status response carries a device_type. -/
def sampleBackend : Backend :=
  { loginResp := .obj [("email", .str "user@example.com")],
    statusResp := .obj
      [("version", .str "1.50.0"), ("device_type", .str "teg")],
    soeResp := .obj [("percentage", .num 87.5)],
    gridStatusResp := .obj
      [("grid_status", .str "SystemGridConnected"),
       ("grid_services_active", .bool false)],
    deviceTypeResp := .obj [("device_type", .str "hec")],
    sitemasterResp := .obj [("running", .bool true)],
    metersResp := .obj [],
    siteInfoResp := .obj [("site_name", .str "Home")],
    operationResp := .obj
      [("real_mode", .str "backup"),
       ("backup_reserved_percent", .num 20)],
    powerwallsResp := .obj
      [("powerwalls", .arr [.obj [("PackageSerialNumber", .str "SN1")]])],
    solarsResp := .arr [],
    configResp := .obj [("vin", .str "VIN1")],
    postSiteNameResp := .obj [] }

/-- A backend whose status endpoint reports the legacy firmware version
1.0.0, while status and the dedicated device-type endpoint disagree on
the device type, so the two paths are distinguishable. -/
def legacyFirmwareBackend : Backend :=
  { sampleBackend with
    statusResp := .obj
      [("version", .str "1.0.0"), ("device_type", .str "teg")] }

/-- A backend whose soe response is the empty mapping. -/
def emptySoeBackend : Backend :=
  { sampleBackend with soeResp := .obj [] }

/-- A backend whose enumeration-valued fields all hold a string outside
the known sets. -/
def unknownEnumBackend : Backend :=
  { sampleBackend with
    gridStatusResp := .obj [("grid_status", .str "bogus")],
    operationResp := .obj [("real_mode", .str "bogus")],
    deviceTypeResp := .obj [("device_type", .str "bogus")] }

/-- A session on the unknown-enum backend pinned below the threshold so
device-type detection takes the legacy path. -/
def unknownEnumSession : Powerwall :=
  { pin := Pin.ver ⟨1, 0, 0⟩, authenticated := false,
    api := unknownEnumBackend }

/-- A key that differs from every key of an association list is not
found by lookup. -/
theorem lookup_eq_none_of_forall_ne {β : Type} (s : String)
    (l : List (String × β)) (h : ∀ q ∈ l, q.1 ≠ s) :
    l.lookup s = none := by
  induction l with
  | nil => rfl
  | cons a t ih =>
      obtain ⟨k, bv⟩ := a
      have ha : k ≠ s := h (k, bv) (List.mem_cons_self _ t)
      have hb : (s == k) = false := by
        simp only [beq_eq_false_iff_ne]
        exact fun hh => ha hh.symm
      simp only [List.lookup, hb]
      exact ih (fun q hq => h q (List.mem_cons_of_mem _ hq))

/-- Device-type detection never changes the session state. -/
theorem get_device_type_state (p : Powerwall) :
    p.get_device_type.state = p := by
  unfold Powerwall.get_device_type
  rcases hp : p.pin with _ | s | v
  · rfl
  · rfl
  · cases hle : thresholdVersion.le v <;> simp [hle]

/-- Device-type detection on a session whose pin holds a parsed
version: the path is decided by comparing against the threshold. -/
theorem get_device_type_ver (p : Powerwall) (v : PWVersion)
    (hp : p.pin = Pin.ver v) :
    p.get_device_type =
      (if thresholdVersion.le v then
        ⟨(PowerwallStatus.mk p.api.statusResp).device_type, p,
         [Endpoint.status]⟩
      else
        ⟨(do
            let w ← assert_attribute p.api.deviceTypeResp "device_type"
              (some "device_type")
            parseEnumField deviceTypeValues "DeviceType" w),
         p, [Endpoint.deviceType]⟩) := by
  unfold Powerwall.get_device_type
  rw [hp]

/-- No operation other than construction, pin_version and
detect_and_pin_version touches the pin field. -/
theorem allOpsPreservePin_holds : allOpsPreservePin := by
  intro p user email password site_name f
  refine ⟨rfl, rfl, rfl, rfl, rfl, rfl, rfl, rfl, rfl, rfl, rfl, rfl,
    rfl, ?_, rfl, rfl, rfl, rfl, rfl, rfl, rfl⟩
  rw [get_device_type_state]

/-- C1: for every version P pinned via pin_version (parsing to v),
get_device_type takes the live path, a single request to the general
status endpoint whose device_type field it reads, iff v is at least the
1.46.0 threshold under major.minor.patch ordering, and otherwise the
legacy path, a single request to the dedicated device-type endpoint; in
particular 1.46.0 parses above-or-at threshold and 1.45.9 below, and in
either case exactly one data request and no version probe is issued. -/
theorem pinned_version_gate (P : String) (v : PWVersion) (p : Powerwall)
    (h : parseVersion P = some v) :
    ((thresholdVersion.le v = true →
        ((p.pin_version P).state.get_device_type.trace = [Endpoint.status] ∧
         (p.pin_version P).state.get_device_type.result
           = (PowerwallStatus.mk p.api.statusResp).device_type)) ∧
     (thresholdVersion.le v = false →
        ((p.pin_version P).state.get_device_type.trace = [Endpoint.deviceType] ∧
         (p.pin_version P).state.get_device_type.result
           = (do
                let w ← assert_attribute p.api.deviceTypeResp "device_type"
                  (some "device_type")
                parseEnumField deviceTypeValues "DeviceType" w))) ∧
     (p.pin_version P).state.get_device_type.trace.length = 1) ∧
    (parseVersion "1.46.0" = some ⟨1, 46, 0⟩ ∧
      thresholdVersion.le ⟨1, 46, 0⟩ = true) ∧
    (parseVersion "1.45.9" = some ⟨1, 45, 9⟩ ∧
      thresholdVersion.le ⟨1, 45, 9⟩ = false) := by
  have hst : (p.pin_version P).state = { p with pin := Pin.ver v } := by
    unfold Powerwall.pin_version
    rw [h]
  have hpin : (p.pin_version P).state.pin = Pin.ver v := by rw [hst]
  have hdt := get_device_type_ver (p.pin_version P).state v hpin
  refine ⟨⟨?_, ?_, ?_⟩, ⟨rfl, rfl⟩, ⟨rfl, rfl⟩⟩
  · intro hle
    rw [hdt, if_pos hle, hst]
    exact ⟨rfl, rfl⟩
  · intro hle
    rw [hdt, if_neg (by rw [hle]; exact fun hh => Bool.noConfusion hh), hst]
    exact ⟨rfl, rfl⟩
  · cases hle : thresholdVersion.le v
    · rw [hdt, if_neg (by rw [hle]; exact fun hh => Bool.noConfusion hh)]
      rfl
    · rw [hdt, if_pos hle]
      rfl

/-- C1 witness: pin 1.46.0 on the sample backend and observe the live
path with its single status request. -/
theorem pinned_version_gate_witness :
    thresholdVersion.le ⟨1, 46, 0⟩ = true ∧
    ((Powerwall.init sampleBackend none).pin_version "1.46.0").state.get_device_type.trace
      = [Endpoint.status] :=
  ⟨rfl,
   ((pinned_version_gate "1.46.0" ⟨1, 46, 0⟩ (Powerwall.init sampleBackend none)
      rfl).1.1 rfl).1⟩

/-- C2: the code stores a constructor-supplied pin as the raw string, so
get_device_type compares str against Version and fails with a TypeError
for every constructor-pinned session, while the same version set via
pin_version takes the live path. -/
theorem constructor_pin_diverges :
    (Powerwall.init sampleBackend (some "1.46.0")).get_device_type.result
      = .error (.typeError "unorderable types: str and Version") ∧
    (Powerwall.init sampleBackend (some "1.46.0")).get_device_type.trace = [] ∧
    ((Powerwall.init sampleBackend none).pin_version "1.46.0").state.get_device_type.result
      = .ok DeviceType.gw2 ∧
    ((Powerwall.init sampleBackend none).pin_version "1.46.0").state.get_device_type.trace
      = [Endpoint.status] :=
  ⟨rfl, rfl, rfl, rfl⟩

/-- C5: pin_version on a malformed version string fails with an
invalid-version error and leaves the whole session state, in particular
the previously stored pin, unchanged. -/
theorem pin_version_invalid_atomic (V : String) (p : Powerwall)
    (h : parseVersion V = Option.none) :
    (p.pin_version V).result = .error (.invalidVersion V) ∧
    (p.pin_version V).state = p ∧
    (p.pin_version V).state.pin = p.pin := by
  unfold Powerwall.pin_version
  rw [h]
  exact ⟨rfl, rfl, rfl⟩

/-- C5 witness: pinning the string not-a-version on a session already
pinned at 1.45.9 fails with InvalidVersion and keeps the 1.45.9 pin. -/
theorem pin_version_invalid_atomic_witness :
    (((Powerwall.init sampleBackend none).pin_version "1.45.9").state.pin_version
        "not-a-version").result
      = .error (.invalidVersion "not-a-version") ∧
    (((Powerwall.init sampleBackend none).pin_version "1.45.9").state.pin_version
        "not-a-version").state.pin
      = Pin.ver ⟨1, 45, 9⟩ :=
  ⟨(pin_version_invalid_atomic "not-a-version"
      ((Powerwall.init sampleBackend none).pin_version "1.45.9").state rfl).1,
   ((pin_version_invalid_atomic "not-a-version"
      ((Powerwall.init sampleBackend none).pin_version "1.45.9").state rfl).2.2).trans rfl⟩

/-- C8: logout always completes without an error, also when the session
is already unauthenticated: a second consecutive logout succeeds too. -/
theorem logout_idempotent (p : Powerwall) :
    p.logout.result = .ok () ∧
    p.logout.state.authenticated = false ∧
    p.logout.state.logout.result = .ok () :=
  ⟨rfl, rfl, rfl⟩

/-- C9: login is extensionally the same operation as login_as with the
customer role: same request with the same payload, same result, same
resulting state. -/
theorem login_is_login_as_customer (p : Powerwall)
    (email password : String) (f : Bool) :
    p.login email password f
      = p.login_as (UserArg.ofUser User.customer) email password f :=
  rfl

/-- C10: every public operation other than construction, pin_version and
detect_and_pin_version leaves the stored pinned version unchanged. -/
theorem public_ops_preserve_pin : allOpsPreservePin :=
  allOpsPreservePin_holds

/-- Device-type detection on a session with no pin set takes the live
path unconditionally. -/
theorem get_device_type_nopin (p : Powerwall) (h : p.pin = Pin.none) :
    p.get_device_type
      = ⟨(PowerwallStatus.mk p.api.statusResp).device_type, p,
         [Endpoint.status]⟩ := by
  unfold Powerwall.get_device_type
  rw [h]

/-- C3 counterexample: on a backend reporting legacy firmware 1.0.0
(below the 1.46.0 threshold) a no-pin get_device_type call issues only
the status request and returns the status response's device type — the
live path — although a version probe would have reported a version that
selects the legacy path, whose endpoint holds a different device type.
No probe is performed to choose the path. -/
theorem no_pin_probe_counterexample :
    assert_attribute legacyFirmwareBackend.statusResp "version"
        (some "status") = .ok (.str "1.0.0") ∧
    parseVersion "1.0.0" = some ⟨1, 0, 0⟩ ∧
    thresholdVersion.le ⟨1, 0, 0⟩ = false ∧
    (Powerwall.init legacyFirmwareBackend none).get_device_type.trace
      = [Endpoint.status] ∧
    (Powerwall.init legacyFirmwareBackend none).get_device_type.trace
      ≠ [Endpoint.deviceType] ∧
    (Powerwall.init legacyFirmwareBackend none).get_device_type.result
      = .ok DeviceType.gw2 ∧
    (do
        let w ← assert_attribute legacyFirmwareBackend.deviceTypeResp
          "device_type" (some "device_type")
        parseEnumField deviceTypeValues "DeviceType" w)
      = Except.ok DeviceType.gw1 ∧
    DeviceType.gw2 ≠ DeviceType.gw1 := by
  refine ⟨rfl, rfl, rfl, rfl, ?_, rfl, rfl, ?_⟩ <;> decide

/-- C3 amended: with no pin set, get_device_type performs no version
probe: it unconditionally takes the live path, issuing the single
status request anew on each call (no caching, the pin stays unset);
and once a pin holding a parsed version is set, the trace is exactly
the one data request of the path selected by the pin comparison, so no
probe is issued then either. -/
theorem no_pin_live_path_each_call (p : Powerwall)
    (h : p.pin = Pin.none) :
    (p.get_device_type.trace = [Endpoint.status] ∧
     p.get_device_type.result
       = (PowerwallStatus.mk p.api.statusResp).device_type ∧
     p.get_device_type.state = p ∧
     p.get_device_type.state.get_device_type.trace = [Endpoint.status]) ∧
    (∀ (q : Powerwall) (w : PWVersion), q.pin = Pin.ver w →
       q.get_device_type.trace
         = (if thresholdVersion.le w then [Endpoint.status]
            else [Endpoint.deviceType])) := by
  have hd := get_device_type_nopin p h
  refine ⟨⟨?_, ?_, ?_, ?_⟩, ?_⟩
  · rw [hd]
  · rw [hd]
  · rw [hd]
  · rw [get_device_type_state p, hd]
  · intro q w hq
    rw [get_device_type_ver q w hq]
    cases hle : thresholdVersion.le w <;> simp [hle]

/-- C3 amended witness: a no-pin session on the sample backend issues
the single status request. -/
theorem no_pin_live_path_each_call_witness :
    (Powerwall.init sampleBackend none).get_device_type.trace
      = [Endpoint.status] :=
  (no_pin_live_path_each_call (Powerwall.init sampleBackend none) rfl).1.1

/-- C4: get_charge funnels through the attribute validator with key
percentage and category soe: a present non-null value is returned
exactly unmodified, a missing or null key fails with the
missing-attribute error naming percentage and soe; concretely a
response holding percentage 87.5 yields 87.5 and the empty response
yields the missing-attribute error. -/
theorem get_charge_attribute_validation (p : Powerwall)
    (fields : List (String × JVal))
    (hb : p.api.soeResp = JVal.obj fields) :
    ((∀ w, fields.lookup "percentage" = some w → w.isNull = false →
        p.get_charge.result = .ok w) ∧
     (fields.lookup "percentage" = Option.none →
        p.get_charge.result
          = .error (.missingAttribute "percentage" (some "soe"))) ∧
     (fields.lookup "percentage" = some JVal.null →
        p.get_charge.result
          = .error (.missingAttribute "percentage" (some "soe")))) ∧
    (Powerwall.init sampleBackend none).get_charge.result
      = .ok (.num 87.5) ∧
    (Powerwall.init emptySoeBackend none).get_charge.result
      = .error (.missingAttribute "percentage" (some "soe")) := by
  refine ⟨⟨?_, ?_, ?_⟩, rfl, rfl⟩
  · intro w hw hnull
    simp only [Powerwall.get_charge, assert_attribute, hb, hw, hnull]
    rfl
  · intro hw
    simp only [Powerwall.get_charge, assert_attribute, hb, hw]
  · intro hw
    simp only [Powerwall.get_charge, assert_attribute, hb, hw]
    rfl

/-- C4 witness: the sample backend's soe response holds percentage 87.5
and get_charge returns it unmodified. -/
theorem get_charge_attribute_validation_witness :
    (Powerwall.init sampleBackend none).get_charge.result
      = .ok (.num 87.5) :=
  (get_charge_attribute_validation (Powerwall.init sampleBackend none)
      [("percentage", JVal.num 87.5)] rfl).1.1 (JVal.num 87.5) rfl rfl

/-- C6: a server response whose enumeration-valued field holds a string
outside the closed known set makes the operation fail with an explicit
unknown-value error instead of returning the string or a default: for
grid status in get_grid_status, operating mode in get_operation_mode,
and device type on the legacy (below-threshold pin) path of
get_device_type. -/
theorem unknown_enum_values_rejected (s : String) (p : Powerwall)
    (v : PWVersion) (gf og df : List (String × JVal))
    (hks1 : ∀ q ∈ gridStatusValues, q.1 ≠ s)
    (hks2 : ∀ q ∈ operationModeValues, q.1 ≠ s)
    (hks3 : ∀ q ∈ deviceTypeValues, q.1 ≠ s)
    (hg : p.api.gridStatusResp = JVal.obj gf)
    (hg2 : gf.lookup "grid_status" = some (JVal.str s))
    (ho : p.api.operationResp = JVal.obj og)
    (ho2 : og.lookup "real_mode" = some (JVal.str s))
    (hd : p.api.deviceTypeResp = JVal.obj df)
    (hd2 : df.lookup "device_type" = some (JVal.str s))
    (hpin : p.pin = Pin.ver v)
    (hv : thresholdVersion.le v = false) :
    p.get_grid_status.result = .error (.unknownEnumValue s "GridStatus") ∧
    p.get_operation_mode.result
      = .error (.unknownEnumValue s "OperationMode") ∧
    p.get_device_type.result
      = .error (.unknownEnumValue s "DeviceType") := by
  have hl1 := lookup_eq_none_of_forall_ne s gridStatusValues hks1
  have hl2 := lookup_eq_none_of_forall_ne s operationModeValues hks2
  have hl3 := lookup_eq_none_of_forall_ne s deviceTypeValues hks3
  have ha1 : assert_attribute p.api.gridStatusResp "grid_status"
      (some "grid_status") = .ok (JVal.str s) := by
    simp only [assert_attribute, hg, hg2]
    rfl
  have ha2 : assert_attribute p.api.operationResp "real_mode"
      (some "operation") = .ok (JVal.str s) := by
    simp only [assert_attribute, ho, ho2]
    rfl
  have ha3 : assert_attribute p.api.deviceTypeResp "device_type"
      (some "device_type") = .ok (JVal.str s) := by
    simp only [assert_attribute, hd, hd2]
    rfl
  refine ⟨?_, ?_, ?_⟩
  · show (do
        let w ← assert_attribute p.api.gridStatusResp "grid_status"
          (some "grid_status")
        parseEnumField gridStatusValues "GridStatus" w)
      = Except.error (Err.unknownEnumValue s "GridStatus")
    rw [ha1]
    show parseEnumField gridStatusValues "GridStatus" (JVal.str s)
      = Except.error (Err.unknownEnumValue s "GridStatus")
    simp only [parseEnumField, hl1]
  · show (do
        let w ← assert_attribute p.api.operationResp "real_mode"
          (some "operation")
        parseEnumField operationModeValues "OperationMode" w)
      = Except.error (Err.unknownEnumValue s "OperationMode")
    rw [ha2]
    show parseEnumField operationModeValues "OperationMode" (JVal.str s)
      = Except.error (Err.unknownEnumValue s "OperationMode")
    simp only [parseEnumField, hl2]
  · rw [get_device_type_ver p v hpin,
      if_neg (by rw [hv]; exact fun hh => Bool.noConfusion hh)]
    show (do
        let w ← assert_attribute p.api.deviceTypeResp "device_type"
          (some "device_type")
        parseEnumField deviceTypeValues "DeviceType" w)
      = Except.error (Err.unknownEnumValue s "DeviceType")
    rw [ha3]
    show parseEnumField deviceTypeValues "DeviceType" (JVal.str s)
      = Except.error (Err.unknownEnumValue s "DeviceType")
    simp only [parseEnumField, hl3]

/-- C6 witness: the string bogus is outside all three known sets, and
on a backend serving it the three operations fail with the respective
unknown-value errors. -/
theorem unknown_enum_values_rejected_witness :
    unknownEnumSession.get_grid_status.result
      = .error (.unknownEnumValue "bogus" "GridStatus") ∧
    unknownEnumSession.get_operation_mode.result
      = .error (.unknownEnumValue "bogus" "OperationMode") ∧
    unknownEnumSession.get_device_type.result
      = .error (.unknownEnumValue "bogus" "DeviceType") :=
  unknown_enum_values_rejected "bogus" unknownEnumSession ⟨1, 0, 0⟩
    [("grid_status", JVal.str "bogus")] [("real_mode", JVal.str "bogus")]
    [("device_type", JVal.str "bogus")]
    (by decide) (by decide) (by decide)
    rfl rfl rfl rfl rfl rfl rfl rfl

/-- C7: detect_and_pin_version issues exactly one probe, the status
request, reads the version string the status endpoint reports, stores
its parse as the pin and returns it; get_pinned_version afterwards
yields the same version, and no other operation ever sets the pin. -/
theorem detect_and_pin_version_spec (p : Powerwall)
    (fields : List (String × JVal)) (s : String) (v : PWVersion)
    (hb : p.api.statusResp = JVal.obj fields)
    (hv : fields.lookup "version" = some (JVal.str s))
    (hp : parseVersion s = some v) :
    (p.get_version.result = .ok (JVal.str s) ∧
     p.detect_and_pin_version.trace = [Endpoint.status] ∧
     p.detect_and_pin_version.result = .ok (Pin.ver v) ∧
     p.detect_and_pin_version.state.pin = Pin.ver v ∧
     p.detect_and_pin_version.state.get_pinned_version.result
       = .ok (Pin.ver v)) ∧
    allOpsPreservePin := by
  have ha : assert_attribute p.api.statusResp "version" (some "status")
      = .ok (JVal.str s) := by
    simp only [assert_attribute, hb, hv]
    rfl
  have hdet : p.detect_and_pin_version
      = ⟨.ok (Pin.ver v), { p with pin := Pin.ver v },
         [Endpoint.status]⟩ := by
    simp only [Powerwall.detect_and_pin_version, Powerwall.get_version, ha]
    simp only [Powerwall.pin_version, hp]
    rfl
  refine ⟨⟨?_, ?_, ?_, ?_, ?_⟩, allOpsPreservePin_holds⟩
  · simp only [Powerwall.get_version, ha]
  · rw [hdet]
  · rw [hdet]
  · rw [hdet]
  · rw [hdet]
    rfl

/-- C7 witness: on the sample backend reporting firmware 1.50.0, the
convenience operation probes once, pins 1.50.0 and returns it. -/
theorem detect_and_pin_version_spec_witness :
    (Powerwall.init sampleBackend none).detect_and_pin_version.result
      = .ok (Pin.ver ⟨1, 50, 0⟩) ∧
    (Powerwall.init sampleBackend none).detect_and_pin_version.trace
      = [Endpoint.status] :=
  ⟨((detect_and_pin_version_spec (Powerwall.init sampleBackend none)
      [("version", JVal.str "1.50.0"), ("device_type", JVal.str "teg")]
      "1.50.0" ⟨1, 50, 0⟩ rfl rfl rfl).1.2.2.1),
   ((detect_and_pin_version_spec (Powerwall.init sampleBackend none)
      [("version", JVal.str "1.50.0"), ("device_type", JVal.str "teg")]
      "1.50.0" ⟨1, 50, 0⟩ rfl rfl rfl).1.2.1)⟩

end TeslaPowerwall
